import Mathlib

/-!
Shallow embedding of `src/js/ui.js` (zakirt/ui-components).

The source file contains two variants of the same module:
the plain variant (first half of the file) and the hardened variant
(second half; an IIFE taking `Rollbar`, with a guarded `initComponent`
and a banner `loadContent` fetch).  The mediator (`uiSubscriber`),
`subscribe`, `unsubscribe` and `broadcast` are identical in both.

Modelling decisions, each mirroring a line of the source:
* A JS object used as a map (`uiSubscriber.components`) is an
  association list `List (Nat × Option Component)`.  `unsubscribe` sets
  a slot to `undefined` rather than deleting the key (line
  `this.components[component.componentId] = undefined`), so a present
  key may hold `none`; `Object.keys` still returns such a key.
* `broadcast` reads `component.componentId` for every key before the
  sender guard; on an `undefined` slot this property access throws a
  TypeError.  We model the throw as `error = some JsError.typeError`,
  keep the registry as mutated so far, and keep a ghost log `invoked`
  of the componentIds whose `listen` fired.  `Object.keys` enumerates
  these integer-like keys in ascending numeric order and the
  `while (len--)` loop walks that array backwards, so `broadcast`
  sweeps the slots in descending key order; the model sorts the
  entries by key, descending, before the sweep.  (The association
  list's own order is not semantic: every keyed read/write is
  order-independent, and `broadcast` re-sorts.)  The sweep order is
  observable only when a cleared slot makes the sweep throw part-way.
* DOM elements carry only what the components touch: a class list
  (`classList.add` / `classList.remove`) and `textContent`.
* Each concrete component's extra elements (`loginLinkElem`,
  `formElem`/`welcomeElem`, `headlineElem`/`contentElem`) are stored in
  an `Anchor` sum, one constructor per role mixin.
-/

/-- The fragment of a DOM element the components manipulate:
`classList` and `textContent`. -/
structure Elem where
  classes : List String
  text : String
deriving DecidableEq, Repr

/-- `elem.classList.add cls`: appends the class if absent, no-op if present. -/
def addClass (e : Elem) (cls : String) : Elem :=
  if cls ∈ e.classes then e else { e with classes := e.classes ++ [cls] }

/-- `elem.classList.remove cls`: removes every occurrence of the class. -/
def removeClass (e : Elem) (cls : String) : Elem :=
  { e with classes := e.classes.filter (fun c => c ≠ cls) }

/-- `elem.textContent = t`. -/
def setText (e : Elem) (t : String) : Elem :=
  { e with text := t }

/-- The ad hoc notification payload: the fields the three broadcasts in the
source ever set (`username`, `loggedIn`, `loggingOut`).  An absent field is
`none` / `false`, matching the falsiness of `undefined`. -/
structure Payload where
  username : Option String := none
  loggedIn : Bool := false
  loggingOut : Bool := false
deriving DecidableEq, Repr

/-- JS truthiness of `data.username`: defined and a non-empty string. -/
def usernameTruthy : Option String → Bool
  | some u => u ≠ ""
  | none => false

/-- The role-specific element references a component's `init` captures from
its anchor element.  `base` is a bare `uiComponent` with no mixin. -/
inductive Anchor
  | base
  | nav (logoutLink : Elem)
  | login (form welcome : Elem) (usernameValue : String)
  | banner (headline content : Elem)
deriving DecidableEq, Repr

/-- A registered component: its identifier and its captured DOM state. -/
structure Component where
  componentId : Nat
  anchor : Anchor
deriving DecidableEq, Repr

/-- Dynamic dispatch of `listen(data)`:
* base `uiComponent.listen` only logs — no state change;
* `navComponent.listen`: `if (data.loggedIn) this.showLogoutLink()`;
* `loginComponent.listen`: `if (data.loggingOut) this.logout()` where
  `logout` adds `d-none` to the welcome region, clears its text and
  removes `d-none` from the form;
* `bannerComponent.listen`: headline text becomes
  `data.username ? 'Hello ' + data.username : 'Hello world!'`. -/
def listen (c : Component) (p : Payload) : Component :=
  match c.anchor with
  | .base => c
  | .nav link =>
      if p.loggedIn then { c with anchor := .nav (removeClass link "d-none") } else c
  | .login form welcome u =>
      if p.loggingOut then
        { c with anchor := .login (removeClass form "d-none")
                                  (setText (addClass welcome "d-none") "") u }
      else c
  | .banner headline content =>
      let txt :=
        match p.username with
        | some u => if u ≠ "" then "Hello " ++ u else "Hello world!"
        | none => "Hello world!"
      { c with anchor := .banner (setText headline txt) content }

/-- `uiSubscriber.components`: a JS object keyed by componentId.  A key may
be present with an `undefined` value (after `unsubscribe`), hence
`Option Component` values. -/
abbrev Registry := List (Nat × Option Component)

/-- Property lookup `this.components[k]`: `none` when the key is absent,
`some none` when present but `undefined`, `some (some c)` otherwise. -/
def lookupReg : Registry → Nat → Option (Option Component)
  | [], _ => none
  | (k, v) :: rest, i => if k = i then some v else lookupReg rest i

/-- Property write `this.components[k] = v`: overwrite if the key is
present, append the key otherwise.  (For these integer-like keys
`Object.keys` order is numeric, so the position of a fresh key is not
observable.) -/
def setReg : Registry → Nat → Option Component → Registry
  | [], k, v => [(k, v)]
  | (k0, v0) :: rest, k, v =>
      if k0 = k then (k0, v) :: rest else (k0, v0) :: setReg rest k v

/-- `uiSubscriber.subscribe`: `if (!this.components[component.componentId])
this.components[component.componentId] = component;` — the slot is filled
only when it is currently absent or `undefined` (falsy). -/
def subscribe (c : Component) (r : Registry) : Registry :=
  match lookupReg r c.componentId with
  | some (some _) => r
  | _ => setReg r c.componentId (some c)

/-- `uiSubscriber.unsubscribe`: `if (this.components[component.componentId])
this.components[component.componentId] = undefined;` — sets the slot to
`undefined`; the key itself stays. -/
def unsubscribe (c : Component) (r : Registry) : Registry :=
  match lookupReg r c.componentId with
  | some (some _) => setReg r c.componentId none
  | _ => r

/-- The only exception kind the modelled code can raise: a property access
on `undefined` (TypeError). -/
inductive JsError
  | typeError
deriving DecidableEq, Repr

/-- Outcome of a `broadcast` call: the registry after the (possibly
partial) sweep, the exception if one was thrown, and a ghost log of the
componentIds whose `listen` was invoked. -/
structure BroadcastResult where
  registry : Registry
  error : Option JsError
  invoked : List Nat
deriving DecidableEq, Repr

/-- `uiSubscriber.broadcast(componentId, data)`: walk every key of
`components`; reading `component.componentId` on an `undefined` slot
throws a TypeError and aborts the sweep; otherwise `listen` fires exactly
when `componentId !== component.componentId`.  A listened component is
replaced by its post-`listen` state (in JS the registry slot aliases the
mutated object). -/
def broadcastGo (senderId : Nat) (p : Payload) : Registry → BroadcastResult
  | [] => ⟨[], none, []⟩
  | (k, none) :: rest => ⟨(k, none) :: rest, some .typeError, []⟩
  | (k, some c) :: rest =>
      let res := broadcastGo senderId p rest
      if senderId = c.componentId then
        ⟨(k, some c) :: res.registry, res.error, res.invoked⟩
      else
        ⟨(k, some (listen c p)) :: res.registry, res.error,
         c.componentId :: res.invoked⟩

/-- Insert an entry into an entry list sorted by key in descending
order. -/
def insertDescByKey (e : Nat × Option Component) : Registry → Registry
  | [] => [e]
  | e2 :: rest =>
      if e2.1 ≤ e.1 then e :: e2 :: rest else e2 :: insertDescByKey e rest

/-- Sort the registry's entries by key, descending — the order in which
`while (len--)` visits the ascending `Object.keys` array. -/
def sortDescByKey : Registry → Registry
  | [] => []
  | e :: rest => insertDescByKey e (sortDescByKey rest)

/-- `uiSubscriber.broadcast`: sweep the slots in descending key order. -/
def broadcast (senderId : Nat) (p : Payload) (r : Registry) : BroadcastResult :=
  broadcastGo senderId p (sortDescByKey r)

/-- The componentIds of the components currently stored in the registry
(skipping `undefined` slots). -/
def registeredIds (r : Registry) : List Nat :=
  r.filterMap (fun e => e.2.map Component.componentId)

/-- Every slot of the registry holds a component (no slot has been cleared
to `undefined`); this holds for every state reachable without
`unsubscribe`. -/
def allSlotsDefined (r : Registry) : Bool :=
  r.all (fun e => e.2.isSome)

/-- Result of a user-event handler (login submit, logout click): the
handler's own component after its DOM updates, the registry, the
exception if one escaped, the ghost `invoked` log of the broadcast it
performed, and a ghost copy of the payload it broadcast (if any). -/
structure SubmitResult where
  self : Component
  registry : Registry
  error : Option JsError
  invoked : List Nat
  sent : Option Payload
deriving DecidableEq, Repr

/-- In JS the registry slot for a component aliases the very object the
event handler mutates, so a handler's self-mutation is visible through the
registry exactly when the slot holds that object.  We model object
identity by structural equality: write the updated component back only
when the slot currently holds the original one. -/
def writeBackSelf (c : Component) (r : Registry) (c2 : Component) : Registry :=
  match lookupReg r c.componentId with
  | some (some c0) => if c0 = c then setReg r c.componentId (some c2) else r
  | _ => r

/-- `loginComponent.login` of the hardened variant (second half of
`ui.js`): read `#username`; if non-empty, broadcast
`{username: username, loggedIn: true}`, then reveal the welcome region,
set its text to `'Welcome ' + username`, and hide the form.  A component
without the login mixin has no `formElem`/`welcomeElem`: the property
accesses throw (TypeError).  If broadcast throws, the exception
propagates before any of the login component's own DOM updates. -/
def loginSubmit (c : Component) (r : Registry) : SubmitResult :=
  match c.anchor with
  | .login form welcome u =>
      if u = "" then ⟨c, r, none, [], none⟩
      else
        let p : Payload := { username := some u, loggedIn := true }
        let res := broadcast c.componentId p r
        match res.error with
        | some e => ⟨c, res.registry, some e, res.invoked, some p⟩
        | none =>
            let welcome2 := setText (removeClass welcome "d-none") ("Welcome " ++ u)
            let form2 := addClass form "d-none"
            let c2 : Component := { c with anchor := .login form2 welcome2 u }
            ⟨c2, writeBackSelf c res.registry c2, none, res.invoked, some p⟩
  | _ => ⟨c, r, some .typeError, [], none⟩

/-- `loginComponent.login` of the plain variant (first half of `ui.js`):
identical to the hardened one except that the broadcast payload
hard-codes `username: 'Zakir'` (line 70) while the welcome text still
uses the value read from the field. -/
def loginSubmitPlain (c : Component) (r : Registry) : SubmitResult :=
  match c.anchor with
  | .login form welcome u =>
      if u = "" then ⟨c, r, none, [], none⟩
      else
        let p : Payload := { username := some "Zakir", loggedIn := true }
        let res := broadcast c.componentId p r
        match res.error with
        | some e => ⟨c, res.registry, some e, res.invoked, some p⟩
        | none =>
            let welcome2 := setText (removeClass welcome "d-none") ("Welcome " ++ u)
            let form2 := addClass form "d-none"
            let c2 : Component := { c with anchor := .login form2 welcome2 u }
            ⟨c2, writeBackSelf c res.registry c2, none, res.invoked, some p⟩
  | _ => ⟨c, r, some .typeError, [], none⟩

/-- The click handler `navComponent.init` installs on `#logout-link`
(both variants): broadcast `{loggingOut: true}` with this component's id,
then `hideLogoutLink()` (add `d-none` to the link).  A component without
the nav mixin has no `loginLinkElem`: TypeError. -/
def logoutClick (c : Component) (r : Registry) : SubmitResult :=
  match c.anchor with
  | .nav link =>
      let p : Payload := { loggingOut := true }
      let res := broadcast c.componentId p r
      match res.error with
      | some e => ⟨c, res.registry, some e, res.invoked, some p⟩
      | none =>
          let c2 : Component := { c with anchor := .nav (addClass link "d-none") }
          ⟨c2, writeBackSelf c res.registry c2, none, res.invoked, some p⟩
  | _ => ⟨c, r, some .typeError, [], none⟩

/-- The settled response of `fetch('../post.json')`: its `ok` flag and
the two JSON fields the banner reads. -/
structure FetchResponse where
  ok : Bool
  headline : String
  content : String
deriving DecidableEq, Repr

/-- `bannerComponent.loadContent` (hardened variant), evaluated at a
settled response: `fetch(..).then(res => { if (res.ok) return res.json(); })`
resolves to the JSON on an ok response and to `undefined` otherwise; the
second `.then` always runs and assigns `data.headline` / `data.content`.
On a non-ok response `data` is `undefined`, so reading `data.headline`
throws a TypeError before either assignment: the element texts stay
unchanged and the rejection escapes unhandled. -/
def loadContent (c : Component) (res : FetchResponse) : Component × Option JsError :=
  match c.anchor with
  | .banner headline content =>
      if res.ok then
        ({ c with anchor := .banner (setText headline res.headline)
                                    (setText content res.content) }, none)
      else
        (c, some .typeError)
  | _ => (c, some .typeError)

/-- `Math.floor(Math.random() * (9999 - 1000 + 1)) + 1000`, with the
`Math.random()` draw as an explicit rational argument `q ∈ [0, 1)`. -/
def genComponentId (q : ℚ) : Nat :=
  (⌊q * ((9999 : ℚ) - 1000 + 1)⌋).toNat + 1000

/-- One argument pair passed to `Rollbar.error(label, message)`.  The code
throws a plain string, and a string has no `.message` property, so the
second argument is `undefined` (`none`). -/
structure RollbarEntry where
  label : String
  message : Option String
deriving DecidableEq, Repr

/-- The own fields `initComponent` assigns on a fresh `uiComponent`
instance; all start as `null`.  `hasNotifier` records whether
`componentNotifier` has been pointed at `uiSubscriber`. -/
structure UiComponentState where
  componentId : Option Nat := none
  elem : Option Anchor := none
  hasNotifier : Bool := false
deriving DecidableEq, Repr

/-- The state `initComponent` touches: the component under construction,
the mediator registry, and the log of `Rollbar.error` calls. -/
structure MediatorState where
  comp : UiComponentState
  registry : Registry
  rollbar : List RollbarEntry
deriving DecidableEq, Repr

/-- `uiComponent.initComponent` of the hardened variant: inside a
`try`, a `null`/absent `elem` throws, so the `catch` calls
`Rollbar.error('Error uiComponents.initComponent: ', e.message)` and
nothing else runs — no field is assigned and `subscribe` is not called.
With an element present, the fields are assigned, an id is generated from
the `Math.random()` draw `q`, and the component is subscribed. -/
def initComponent (elem : Option Anchor) (q : ℚ) (s : MediatorState) : MediatorState :=
  match elem with
  | none =>
      { s with rollbar := s.rollbar ++ [⟨"Error uiComponents.initComponent: ", none⟩] }
  | some a =>
      let cid := genComponentId q
      { comp := { componentId := some cid, elem := some a, hasNotifier := true },
        registry := subscribe ⟨cid, a⟩ s.registry,
        rollbar := s.rollbar }

/-! ### Lemmas about the registry and `broadcast` -/

theorem lookupReg_setReg_ne (r : Registry) (j k : Nat) (v : Option Component)
    (h : j ≠ k) : lookupReg (setReg r j v) k = lookupReg r k := by
  induction r with
  | nil => simp [setReg, lookupReg, h]
  | cons e rest ih =>
      obtain ⟨k0, v0⟩ := e
      by_cases hk : k0 = j
      · subst hk
        simp [setReg, lookupReg, h]
      · simp [setReg, lookupReg, hk, ih]

theorem mem_of_lookupReg (r : Registry) (k : Nat) (v : Option Component)
    (h : lookupReg r k = some v) : (k, v) ∈ r := by
  induction r with
  | nil => simp [lookupReg] at h
  | cons e rest ih =>
      obtain ⟨k0, v0⟩ := e
      by_cases hk : k0 = k
      · subst hk
        simp [lookupReg] at h
        simp [h]
      · simp [lookupReg, hk] at h
        exact List.mem_cons_of_mem _ (ih h)

theorem broadcastGo_cons_none (sid : Nat) (p : Payload) (k : Nat)
    (rest : Registry) :
    broadcastGo sid p ((k, none) :: rest)
      = ⟨(k, none) :: rest, some JsError.typeError, []⟩ := rfl

theorem broadcastGo_cons_skip (sid : Nat) (p : Payload) (k : Nat) (c : Component)
    (rest : Registry) (hs : sid = c.componentId) :
    broadcastGo sid p ((k, some c) :: rest)
      = ⟨(k, some c) :: (broadcastGo sid p rest).registry,
         (broadcastGo sid p rest).error, (broadcastGo sid p rest).invoked⟩ := by
  conv_lhs => unfold broadcastGo
  simp only [if_pos hs]

theorem broadcastGo_cons_fire (sid : Nat) (p : Payload) (k : Nat) (c : Component)
    (rest : Registry) (hs : sid ≠ c.componentId) :
    broadcastGo sid p ((k, some c) :: rest)
      = ⟨(k, some (listen c p)) :: (broadcastGo sid p rest).registry,
         (broadcastGo sid p rest).error,
         c.componentId :: (broadcastGo sid p rest).invoked⟩ := by
  conv_lhs => unfold broadcastGo
  simp only [if_neg hs]

theorem broadcastGo_invoked_ne_sender (sid : Nat) (p : Payload) (r : Registry) :
    ∀ i ∈ (broadcastGo sid p r).invoked, i ≠ sid := by
  induction r with
  | nil => simp [broadcastGo]
  | cons e rest ih =>
      obtain ⟨k, v⟩ := e
      cases v with
      | none => simp [broadcastGo_cons_none]
      | some c =>
          by_cases hs : sid = c.componentId
          · rw [broadcastGo_cons_skip _ _ _ _ _ hs]
            exact ih
          · rw [broadcastGo_cons_fire _ _ _ _ _ hs]
            intro i hi
            rcases List.mem_cons.mp hi with hi | hi
            · subst hi
              exact fun h2 => hs h2.symm
            · exact ih i hi

theorem broadcastGo_invoked_registered (sid : Nat) (p : Payload) (r : Registry) :
    ∀ i ∈ (broadcastGo sid p r).invoked, i ∈ registeredIds r := by
  induction r with
  | nil => simp [broadcastGo]
  | cons e rest ih =>
      obtain ⟨k, v⟩ := e
      cases v with
      | none => simp [broadcastGo_cons_none]
      | some c =>
          intro i hi
          by_cases hs : sid = c.componentId
          · rw [broadcastGo_cons_skip _ _ _ _ _ hs] at hi
            simp only [registeredIds, List.filterMap_cons, Option.map_some]
            exact List.mem_cons_of_mem _ (by simpa [registeredIds] using ih i hi)
          · rw [broadcastGo_cons_fire _ _ _ _ _ hs] at hi
            simp only [registeredIds, List.filterMap_cons, Option.map_some]
            rcases List.mem_cons.mp hi with hi | hi
            · exact hi ▸ List.mem_cons_self _ _
            · exact List.mem_cons_of_mem _ (by simpa [registeredIds] using ih i hi)

theorem broadcastGo_error_none (sid : Nat) (p : Payload) (r : Registry)
    (h : allSlotsDefined r = true) : (broadcastGo sid p r).error = none := by
  induction r with
  | nil => simp [broadcastGo]
  | cons e rest ih =>
      obtain ⟨k, v⟩ := e
      simp [allSlotsDefined] at h
      cases v with
      | none => simp at h
      | some c =>
          have hrest : allSlotsDefined rest = true := by
            simpa [allSlotsDefined] using h.2
          by_cases hs : sid = c.componentId
          · rw [broadcastGo_cons_skip _ _ _ _ _ hs]
            exact ih hrest
          · rw [broadcastGo_cons_fire _ _ _ _ _ hs]
            exact ih hrest

theorem broadcastGo_error_of_cleared (sid : Nat) (p : Payload) (r : Registry)
    (h : allSlotsDefined r = false) :
    (broadcastGo sid p r).error = some JsError.typeError := by
  induction r with
  | nil => simp [allSlotsDefined] at h
  | cons e rest ih =>
      obtain ⟨k, v⟩ := e
      cases v with
      | none => simp [broadcastGo_cons_none]
      | some c =>
          have hrest : allSlotsDefined rest = false := by
            simpa [allSlotsDefined] using h
          by_cases hs : sid = c.componentId
          · rw [broadcastGo_cons_skip _ _ _ _ _ hs]
            exact ih hrest
          · rw [broadcastGo_cons_fire _ _ _ _ _ hs]
            exact ih hrest

theorem broadcastGo_delivers (sid : Nat) (p : Payload) (r : Registry)
    (h : allSlotsDefined r = true) :
    ∀ k c, (k, some c) ∈ r → c.componentId ≠ sid →
      c.componentId ∈ (broadcastGo sid p r).invoked := by
  induction r with
  | nil => simp
  | cons e rest ih =>
      obtain ⟨k0, v0⟩ := e
      simp [allSlotsDefined] at h
      cases v0 with
      | none => simp at h
      | some c0 =>
          have hrest : allSlotsDefined rest = true := by
            simpa [allSlotsDefined] using h.2
          intro k c hm hne
          rcases List.mem_cons.mp hm with hm | hm
          · injection hm with hk hv
            injection hv with hc
            subst hc
            rw [broadcastGo_cons_fire _ _ _ _ _ (Ne.symm hne)]
            exact List.mem_cons_self _ _
          · have hmem := ih hrest k c hm hne
            by_cases hs : sid = c0.componentId
            · rw [broadcastGo_cons_skip _ _ _ _ _ hs]
              exact hmem
            · rw [broadcastGo_cons_fire _ _ _ _ _ hs]
              exact List.mem_cons_of_mem _ hmem

theorem broadcastGo_lookup (sid : Nat) (p : Payload) (r : Registry)
    (h : allSlotsDefined r = true) (k : Nat) :
    lookupReg (broadcastGo sid p r).registry k
      = (lookupReg r k).map (Option.map
          (fun c => if sid = c.componentId then c else listen c p)) := by
  induction r with
  | nil => simp [broadcastGo, lookupReg]
  | cons e rest ih =>
      obtain ⟨k0, v0⟩ := e
      simp [allSlotsDefined] at h
      cases v0 with
      | none => simp at h
      | some c =>
          have hrest : allSlotsDefined rest = true := by
            simpa [allSlotsDefined] using h.2
          by_cases hs : sid = c.componentId
          · rw [broadcastGo_cons_skip _ _ _ _ _ hs]
            by_cases hk : k0 = k
            · subst hk
              simp [lookupReg, hs]
            · simp [lookupReg, hk, ih hrest]
          · rw [broadcastGo_cons_fire _ _ _ _ _ hs]
            by_cases hk : k0 = k
            · subst hk
              simp [lookupReg, hs]
            · simp [lookupReg, hk, ih hrest]

theorem lookupReg_writeBackSelf_ne (c : Component) (r : Registry) (c2 : Component)
    (k : Nat) (h : k ≠ c.componentId) :
    lookupReg (writeBackSelf c r c2) k = lookupReg r k := by
  unfold writeBackSelf
  cases hl : lookupReg r c.componentId with
  | none => rfl
  | some v =>
      cases v with
      | none => rfl
      | some c0 =>
          by_cases he : c0 = c
          · simp [he, lookupReg_setReg_ne _ _ _ _ (Ne.symm h)]
          · simp [he]

theorem mem_addClass (e : Elem) (cls : String) : cls ∈ (addClass e cls).classes := by
  unfold addClass
  split
  · assumption
  · simp

theorem not_mem_removeClass (e : Elem) (cls : String) :
    cls ∉ (removeClass e cls).classes := by
  simp [removeClass]

theorem insertDescByKey_perm (e : Nat × Option Component) (r : Registry) :
    List.Perm (insertDescByKey e r) (e :: r) := by
  induction r with
  | nil => exact List.Perm.refl _
  | cons e2 rest ih =>
      unfold insertDescByKey
      split
      · exact List.Perm.refl _
      · exact (ih.cons e2).trans (List.Perm.swap e e2 rest)

theorem sortDescByKey_perm (r : Registry) : List.Perm (sortDescByKey r) r := by
  induction r with
  | nil => exact List.Perm.refl _
  | cons e rest ih =>
      exact (insertDescByKey_perm e (sortDescByKey rest)).trans (ih.cons e)

theorem allSlotsDefined_sortDescByKey (r : Registry) :
    allSlotsDefined (sortDescByKey r) = allSlotsDefined r := by
  unfold allSlotsDefined
  cases h : r.all (fun e => e.2.isSome) with
  | true =>
      rw [List.all_eq_true] at h ⊢
      intro e he
      exact h e ((sortDescByKey_perm r).mem_iff.mp he)
  | false =>
      rw [List.all_eq_false] at h ⊢
      obtain ⟨e, he, hne⟩ := h
      exact ⟨e, (sortDescByKey_perm r).mem_iff.mpr he, hne⟩

theorem registeredIds_sortDescByKey_mem (r : Registry) (i : Nat) :
    i ∈ registeredIds (sortDescByKey r) ↔ i ∈ registeredIds r := by
  unfold registeredIds
  exact ((sortDescByKey_perm r).filterMap _).mem_iff

theorem lookupReg_eq_none_iff (r : Registry) (k : Nat) :
    lookupReg r k = none ↔ k ∉ r.map Prod.fst := by
  induction r with
  | nil => simp [lookupReg]
  | cons e rest ih =>
      obtain ⟨k0, v0⟩ := e
      by_cases hk : k0 = k
      · subst hk
        simp [lookupReg]
      · simp [lookupReg, hk, ih, Ne.symm hk]

theorem lookupReg_eq_some_of_mem (r : Registry) (k : Nat) (v : Option Component)
    (hnd : (r.map Prod.fst).Nodup) (hm : (k, v) ∈ r) : lookupReg r k = some v := by
  induction r with
  | nil => cases hm
  | cons e rest ih =>
      obtain ⟨k0, v0⟩ := e
      rw [List.map_cons, List.nodup_cons] at hnd
      rcases List.mem_cons.mp hm with hm | hm
      · injection hm with h1 h2
        subst h1
        subst h2
        simp [lookupReg]
      · have hk : k0 ≠ k := by
          intro hkk
          subst hkk
          exact hnd.1 (List.mem_map.mpr ⟨(k0, v), hm, rfl⟩)
        simp only [lookupReg, if_neg hk]
        exact ih hnd.2 hm

theorem lookupReg_sortDescByKey (r : Registry) (k : Nat)
    (hnd : (r.map Prod.fst).Nodup) :
    lookupReg (sortDescByKey r) k = lookupReg r k := by
  have hperm := sortDescByKey_perm r
  have hnd2 : ((sortDescByKey r).map Prod.fst).Nodup :=
    ((hperm.map Prod.fst).nodup_iff).mpr hnd
  cases hl : lookupReg r k with
  | some v =>
      exact lookupReg_eq_some_of_mem _ _ _ hnd2
        (hperm.mem_iff.mpr (mem_of_lookupReg r k v hl))
  | none =>
      rw [lookupReg_eq_none_iff] at hl ⊢
      exact fun hmem => hl ((hperm.map Prod.fst).mem_iff.mp hmem)

/-! ### Claim theorems -/

/-- C1: For every registry state and every `broadcast(senderId, payload)`
call, the handler (`listen`) of a component whose `componentId` equals
`senderId` is never invoked; the payload is delivered only to registered
components whose `componentId` differs from `senderId`. -/
theorem broadcast_never_invokes_sender (r : Registry) (senderId : Nat) (p : Payload) :
    senderId ∉ (broadcast senderId p r).invoked ∧
    ∀ i ∈ (broadcast senderId p r).invoked, i ≠ senderId ∧ i ∈ registeredIds r := by
  unfold broadcast
  constructor
  · intro hmem
    exact broadcastGo_invoked_ne_sender senderId p (sortDescByKey r) senderId hmem rfl
  · intro i hi
    exact ⟨broadcastGo_invoked_ne_sender senderId p (sortDescByKey r) i hi,
           (registeredIds_sortDescByKey_mem r i).mp
             (broadcastGo_invoked_registered senderId p (sortDescByKey r) i hi)⟩

/-- Witness for C1: in a registry holding components 1000 and 2000, a
broadcast from 2000 invokes 1000, which is registered and not the sender. -/
theorem broadcast_never_invokes_sender_witness :
    1000 ∈ (broadcast 2000 { loggedIn := true }
        [(1000, some ⟨1000, Anchor.base⟩), (2000, some ⟨2000, Anchor.base⟩)]).invoked ∧
    (1000 ≠ 2000 ∧ 1000 ∈ registeredIds
        [(1000, some ⟨1000, Anchor.base⟩), (2000, some ⟨2000, Anchor.base⟩)]) :=
  ⟨by decide,
   (broadcast_never_invokes_sender
      [(1000, some ⟨1000, Anchor.base⟩), (2000, some ⟨2000, Anchor.base⟩)]
      2000 { loggedIn := true }).2 1000 (by decide)⟩

/-- C2 counterexample: subscribe 1000, 1500 and 2000, unsubscribe 2000,
then broadcast from 1000.  The cleared slot is still a key of the
registry and is visited first (highest id), so reading `componentId` of
`undefined` throws a TypeError at once, and component 1500 — remaining,
registered, not the sender — is never delivered to, contradicting the
claim that such a broadcast delivers to every remaining component and
signals no error. -/
theorem broadcast_after_unsubscribe_raises :
    ((broadcast 1000 { loggedIn := true }
        (unsubscribe ⟨2000, Anchor.base⟩
          (subscribe ⟨2000, Anchor.base⟩
            (subscribe ⟨1500, Anchor.base⟩
              (subscribe ⟨1000, Anchor.base⟩ []))))).error = some JsError.typeError) ∧
    1500 ∉ (broadcast 1000 { loggedIn := true }
        (unsubscribe ⟨2000, Anchor.base⟩
          (subscribe ⟨2000, Anchor.base⟩
            (subscribe ⟨1500, Anchor.base⟩
              (subscribe ⟨1000, Anchor.base⟩ []))))).invoked := by
  decide

/-- C2 (amended): if every slot of the registry holds a component — as in
any state reached without `unsubscribe` — then `broadcast` signals no
error and delivers the payload to every registered component other than
the sender; but in a state where `unsubscribe` has cleared a slot to
`undefined`, a subsequent `broadcast` throws a TypeError (reading
`componentId` of `undefined`) and may skip remaining components. -/
theorem broadcast_total_unless_slot_cleared (r : Registry) (senderId : Nat) (p : Payload) :
    (allSlotsDefined r = true →
      (broadcast senderId p r).error = none ∧
      ∀ k c, (k, some c) ∈ r → c.componentId ≠ senderId →
        c.componentId ∈ (broadcast senderId p r).invoked) ∧
    (allSlotsDefined r = false →
      (broadcast senderId p r).error = some JsError.typeError) := by
  unfold broadcast
  constructor
  · intro h
    have hs : allSlotsDefined (sortDescByKey r) = true :=
      (allSlotsDefined_sortDescByKey r).trans h
    refine ⟨broadcastGo_error_none senderId p _ hs, ?_⟩
    intro k c hm hne
    exact broadcastGo_delivers senderId p _ hs k c
      ((sortDescByKey_perm r).mem_iff.mpr hm) hne
  · intro h
    have hs : allSlotsDefined (sortDescByKey r) = false :=
      (allSlotsDefined_sortDescByKey r).trans h
    exact broadcastGo_error_of_cleared senderId p _ hs

/-- Witness for the amended C2, at a fully defined two-component registry
(error-free delivery to the non-sender) and at a registry with a cleared
slot (TypeError). -/
theorem broadcast_total_unless_slot_cleared_witness :
    (allSlotsDefined
        [(1000, some (⟨1000, Anchor.base⟩ : Component)), (2000, some ⟨2000, Anchor.base⟩)] = true ∧
      (broadcast 2000 { loggedIn := true }
        [(1000, some ⟨1000, Anchor.base⟩), (2000, some ⟨2000, Anchor.base⟩)]).error = none ∧
      ((1000, some (⟨1000, Anchor.base⟩ : Component)) ∈
        ([(1000, some ⟨1000, Anchor.base⟩), (2000, some ⟨2000, Anchor.base⟩)] : Registry)) ∧
      ((1000 : Nat) ≠ 2000) ∧
      1000 ∈ (broadcast 2000 { loggedIn := true }
        [(1000, some ⟨1000, Anchor.base⟩), (2000, some ⟨2000, Anchor.base⟩)]).invoked) ∧
    (allSlotsDefined [((1000 : Nat), (none : Option Component))] = false ∧
      (broadcast 2000 { loggedIn := true }
        [((1000 : Nat), (none : Option Component))]).error = some JsError.typeError) :=
  ⟨⟨by decide,
    ((broadcast_total_unless_slot_cleared
        [(1000, some ⟨1000, Anchor.base⟩), (2000, some ⟨2000, Anchor.base⟩)]
        2000 { loggedIn := true }).1 (by decide)).1,
    by decide, by decide,
    ((broadcast_total_unless_slot_cleared
        [(1000, some ⟨1000, Anchor.base⟩), (2000, some ⟨2000, Anchor.base⟩)]
        2000 { loggedIn := true }).1 (by decide)).2
      1000 ⟨1000, Anchor.base⟩ (by decide) (by decide)⟩,
   ⟨by decide,
    (broadcast_total_unless_slot_cleared [((1000 : Nat), (none : Option Component))]
        2000 { loggedIn := true }).2 (by decide)⟩⟩

/-- C4: if the registry maps identifier `i` to component `c1`, then
subscribing any component `c2` whose `componentId` is also `i` leaves the
registry unchanged — the slot for `i` still holds `c1`; the second
subscription is silently ignored. -/
theorem subscribe_collision_keeps_first (r : Registry) (i : Nat) (c1 c2 : Component)
    (h1 : lookupReg r i = some (some c1)) (h2 : c2.componentId = i) :
    subscribe c2 r = r ∧ lookupReg (subscribe c2 r) i = some (some c1) := by
  have hsub : subscribe c2 r = r := by
    unfold subscribe
    rw [h2, h1]
  exact ⟨hsub, by rw [hsub, h1]⟩

/-- Witness for C4: component 1000 (a nav) is registered; subscribing a
different component (a base) with the same identifier 1000 is ignored. -/
theorem subscribe_collision_keeps_first_witness :
    (lookupReg [(1000, some (⟨1000, Anchor.nav ⟨[], ""⟩⟩ : Component))] 1000
        = some (some ⟨1000, Anchor.nav ⟨[], ""⟩⟩)) ∧
    ((⟨1000, Anchor.base⟩ : Component).componentId = 1000) ∧
    (subscribe ⟨1000, Anchor.base⟩ [(1000, some (⟨1000, Anchor.nav ⟨[], ""⟩⟩ : Component))]
        = [(1000, some (⟨1000, Anchor.nav ⟨[], ""⟩⟩ : Component))] ∧
      lookupReg (subscribe ⟨1000, Anchor.base⟩
          [(1000, some (⟨1000, Anchor.nav ⟨[], ""⟩⟩ : Component))]) 1000
        = some (some ⟨1000, Anchor.nav ⟨[], ""⟩⟩)) :=
  ⟨by decide, by decide,
   subscribe_collision_keeps_first
     [(1000, some ⟨1000, Anchor.nav ⟨[], ""⟩⟩)] 1000
     ⟨1000, Anchor.nav ⟨[], ""⟩⟩ ⟨1000, Anchor.base⟩ (by decide) (by decide)⟩

/-- C5: in the hardened variant, `initComponent` called with a
`null`/absent anchor appends an error to the `Rollbar` collector and does
nothing else: the component's fields stay unassigned (initialization is
aborted) and the mediator registry is unchanged (the component is not
registered). -/
theorem initComponent_null_anchor_aborts (pre : UiComponentState) (q : ℚ)
    (r : Registry) (log : List RollbarEntry) :
    initComponent none q ⟨pre, r, log⟩
      = ⟨pre, r, log ++ [⟨"Error uiComponents.initComponent: ", none⟩]⟩ := rfl

/-- C10: every identifier produced by
`Math.floor(Math.random() * (9999 - 1000 + 1)) + 1000` from a draw
`q ∈ [0, 1)` lies in the closed range `[1000, 9999]`. -/
theorem genComponentId_range (q : ℚ) (h0 : 0 ≤ q) (h1 : q < 1) :
    1000 ≤ genComponentId q ∧ genComponentId q ≤ 9999 := by
  unfold genComponentId
  have h9 : ((9999 : ℚ) - 1000 + 1) = 9000 := by norm_num
  rw [h9]
  have hlow : (0 : ℤ) ≤ ⌊q * 9000⌋ := by
    apply Int.floor_nonneg.mpr
    positivity
  have hup : ⌊q * 9000⌋ < 9000 := by
    apply Int.floor_lt.mpr
    push_cast
    nlinarith
  have htn : (⌊q * 9000⌋).toNat ≤ 8999 := by
    omega
  omega

/-- Witness for C10 at the draw `q = 1/2`, which yields identifier 5500. -/
theorem genComponentId_range_witness :
    (0 ≤ (1/2 : ℚ)) ∧ ((1/2 : ℚ) < 1) ∧
    (1000 ≤ genComponentId (1/2) ∧ genComponentId (1/2) ≤ 9999) :=
  ⟨by norm_num, by norm_num, genComponentId_range (1/2) (by norm_num) (by norm_num)⟩

/-- C3 (code bug): submitting the plain variant's login form with
username `"Alice"` broadcasts the hard-coded payload
`{username: 'Zakir', loggedIn: true}`, not the entered name — while its
own welcome text does use `"Alice"`; the hardened variant of the very
same function broadcasts `{username: 'Alice', loggedIn: true}`,
confirming the intent the claim states. -/
theorem login_broadcast_username_hardcoded :
    ((loginSubmitPlain ⟨1000, Anchor.login ⟨[], ""⟩ ⟨["d-none"], ""⟩ "Alice"⟩
        [(1000, some ⟨1000, Anchor.login ⟨[], ""⟩ ⟨["d-none"], ""⟩ "Alice"⟩)]).sent
      = some { username := some "Zakir", loggedIn := true }) ∧
    ((loginSubmitPlain ⟨1000, Anchor.login ⟨[], ""⟩ ⟨["d-none"], ""⟩ "Alice"⟩
        [(1000, some ⟨1000, Anchor.login ⟨[], ""⟩ ⟨["d-none"], ""⟩ "Alice"⟩)]).self.anchor
      = Anchor.login ⟨["d-none"], ""⟩ ⟨[], "Welcome Alice"⟩ "Alice") ∧
    ((loginSubmit ⟨1000, Anchor.login ⟨[], ""⟩ ⟨["d-none"], ""⟩ "Alice"⟩
        [(1000, some ⟨1000, Anchor.login ⟨[], ""⟩ ⟨["d-none"], ""⟩ "Alice"⟩)]).sent
      = some { username := some "Alice", loggedIn := true }) := by
  decide

/-- Unfolding of `loginSubmit` (hardened variant) for a login component
with a non-empty username when the broadcast does not throw. -/
theorem loginSubmit_eq (cid : Nat) (r : Registry) (form welcome : Elem) (u : String)
    (hu : u ≠ "")
    (herr : (broadcast cid { username := some u, loggedIn := true } r).error = none) :
    loginSubmit ⟨cid, .login form welcome u⟩ r
      = ⟨⟨cid, .login (addClass form "d-none")
            (setText (removeClass welcome "d-none") ("Welcome " ++ u)) u⟩,
         writeBackSelf ⟨cid, .login form welcome u⟩
           (broadcast cid { username := some u, loggedIn := true } r).registry
           ⟨cid, .login (addClass form "d-none")
               (setText (removeClass welcome "d-none") ("Welcome " ++ u)) u⟩,
         none,
         (broadcast cid { username := some u, loggedIn := true } r).invoked,
         some { username := some u, loggedIn := true }⟩ := by
  conv_lhs => unfold loginSubmit
  simp only [if_neg hu]
  rw [herr]

/-- Unfolding of the logout-link click handler for a nav component when
the broadcast does not throw. -/
theorem logoutClick_eq (cid : Nat) (r : Registry) (link : Elem)
    (herr : (broadcast cid { loggingOut := true } r).error = none) :
    logoutClick ⟨cid, .nav link⟩ r
      = ⟨⟨cid, .nav (addClass link "d-none")⟩,
         writeBackSelf ⟨cid, .nav link⟩
           (broadcast cid { loggingOut := true } r).registry
           ⟨cid, .nav (addClass link "d-none")⟩,
         none,
         (broadcast cid { loggingOut := true } r).invoked,
         some { loggingOut := true }⟩ := by
  conv_lhs => unfold logoutClick
  dsimp only
  rw [herr]

/-- C6 counterexample: login 1000 and nav 2000 are both registered with
distinct identifiers, but a third slot (3000) was cleared by
`unsubscribe`.  Submitting the login form with the non-empty username
`"Ann"` then throws before any delivery — the slot with the highest key
is swept first — so the nav component is never notified and its logout
link keeps its `d-none` class, contradicting the claim for this state. -/
theorem login_submit_blocked_by_cleared_slot :
    ((unsubscribe ⟨3000, Anchor.base⟩
        (subscribe ⟨3000, Anchor.base⟩
          (subscribe ⟨2000, Anchor.nav ⟨["d-none"], ""⟩⟩
            (subscribe ⟨1000, Anchor.login ⟨[], ""⟩ ⟨["d-none"], ""⟩ "Ann"⟩ []))))
      = [(1000, some ⟨1000, Anchor.login ⟨[], ""⟩ ⟨["d-none"], ""⟩ "Ann"⟩),
         (2000, some ⟨2000, Anchor.nav ⟨["d-none"], ""⟩⟩), (3000, none)]) ∧
    ((loginSubmit ⟨1000, Anchor.login ⟨[], ""⟩ ⟨["d-none"], ""⟩ "Ann"⟩
        [(1000, some ⟨1000, Anchor.login ⟨[], ""⟩ ⟨["d-none"], ""⟩ "Ann"⟩),
         (2000, some ⟨2000, Anchor.nav ⟨["d-none"], ""⟩⟩), (3000, none)]).error
      = some JsError.typeError) ∧
    (2000 ∉ (loginSubmit ⟨1000, Anchor.login ⟨[], ""⟩ ⟨["d-none"], ""⟩ "Ann"⟩
        [(1000, some ⟨1000, Anchor.login ⟨[], ""⟩ ⟨["d-none"], ""⟩ "Ann"⟩),
         (2000, some ⟨2000, Anchor.nav ⟨["d-none"], ""⟩⟩), (3000, none)]).invoked) ∧
    (lookupReg (loginSubmit ⟨1000, Anchor.login ⟨[], ""⟩ ⟨["d-none"], ""⟩ "Ann"⟩
        [(1000, some ⟨1000, Anchor.login ⟨[], ""⟩ ⟨["d-none"], ""⟩ "Ann"⟩),
         (2000, some ⟨2000, Anchor.nav ⟨["d-none"], ""⟩⟩), (3000, none)]).registry 2000
      = some (some ⟨2000, Anchor.nav ⟨["d-none"], ""⟩⟩)) := by
  decide

/-- C6 (amended): with a login component and a nav component both
registered under distinct identifiers, provided every registry slot holds
a component (no slot has been cleared by `unsubscribe`; registry keys
are unique, as JS object keys always are), submitting the login form
with a non-empty username makes the nav component's `listen` receive a
payload whose `loggedIn` is true, and the nav component in the registry
ends with `d-none` removed from its logout link — the logout control is
revealed.  With a cleared slot the broadcast can instead throw before
the nav component is notified. -/
theorem login_submit_reveals_nav_logout
    (r : Registry) (login nav : Component) (form welcome link : Elem) (u : String)
    (hAll : allSlotsDefined r = true)
    (hKeys : (r.map Prod.fst).Nodup)
    (hNavReg : lookupReg r nav.componentId = some (some nav))
    (hNavShape : nav.anchor = Anchor.nav link)
    (hLoginShape : login.anchor = Anchor.login form welcome u)
    (hDistinct : login.componentId ≠ nav.componentId)
    (hu : u ≠ "") :
    (loginSubmit login r).error = none ∧
    (loginSubmit login r).sent = some { username := some u, loggedIn := true } ∧
    nav.componentId ∈ (loginSubmit login r).invoked ∧
    lookupReg (loginSubmit login r).registry nav.componentId
      = some (some { nav with anchor := Anchor.nav (removeClass link "d-none") }) ∧
    "d-none" ∉ (removeClass link "d-none").classes := by
  obtain ⟨cid, anchor⟩ := login
  obtain ⟨nid, nanchor⟩ := nav
  simp only [Component.mk.injEq] at hLoginShape hNavShape hDistinct hNavReg
  subst hLoginShape
  subst hNavShape
  have hs : allSlotsDefined (sortDescByKey r) = true :=
    (allSlotsDefined_sortDescByKey r).trans hAll
  have herr : (broadcast cid { username := some u, loggedIn := true } r).error = none := by
    unfold broadcast
    exact broadcastGo_error_none _ _ _ hs
  rw [loginSubmit_eq cid r form welcome u hu herr]
  refine ⟨rfl, rfl, ?_, ?_, not_mem_removeClass link "d-none"⟩
  · unfold broadcast
    exact broadcastGo_delivers cid _ _ hs _ ⟨nid, Anchor.nav link⟩
      ((sortDescByKey_perm r).mem_iff.mpr (mem_of_lookupReg r _ _ hNavReg))
      (Ne.symm hDistinct)
  · rw [lookupReg_writeBackSelf_ne _ _ _ _ (Ne.symm hDistinct)]
    unfold broadcast
    rw [broadcastGo_lookup cid { username := some u, loggedIn := true }
          (sortDescByKey r) hs nid,
        lookupReg_sortDescByKey r nid hKeys, hNavReg]
    dsimp only [Option.map]
    rw [if_neg hDistinct]
    rfl

/-- Witness for the amended C6: login 1000 (username `"Ann"`) and nav
2000 (hidden logout link) are registered; the submit reveals the logout
link. -/
theorem login_submit_reveals_nav_logout_witness :
    (allSlotsDefined [(1000, some (⟨1000, Anchor.login ⟨[], ""⟩ ⟨["d-none"], ""⟩ "Ann"⟩ : Component)), (2000, some ⟨2000, Anchor.nav ⟨["d-none"], ""⟩⟩)] = true) ∧
    (([(1000, some (⟨1000, Anchor.login ⟨[], ""⟩ ⟨["d-none"], ""⟩ "Ann"⟩ : Component)), (2000, some ⟨2000, Anchor.nav ⟨["d-none"], ""⟩⟩)].map Prod.fst).Nodup) ∧
    (lookupReg [(1000, some (⟨1000, Anchor.login ⟨[], ""⟩ ⟨["d-none"], ""⟩ "Ann"⟩ : Component)), (2000, some ⟨2000, Anchor.nav ⟨["d-none"], ""⟩⟩)] 2000 = some (some ⟨2000, Anchor.nav ⟨["d-none"], ""⟩⟩)) ∧
    ((1000 : Nat) ≠ 2000) ∧ ("Ann" ≠ "") ∧
    ((loginSubmit ⟨1000, Anchor.login ⟨[], ""⟩ ⟨["d-none"], ""⟩ "Ann"⟩ [(1000, some ⟨1000, Anchor.login ⟨[], ""⟩ ⟨["d-none"], ""⟩ "Ann"⟩), (2000, some ⟨2000, Anchor.nav ⟨["d-none"], ""⟩⟩)]).error = none ∧
     (loginSubmit ⟨1000, Anchor.login ⟨[], ""⟩ ⟨["d-none"], ""⟩ "Ann"⟩ [(1000, some ⟨1000, Anchor.login ⟨[], ""⟩ ⟨["d-none"], ""⟩ "Ann"⟩), (2000, some ⟨2000, Anchor.nav ⟨["d-none"], ""⟩⟩)]).sent = some { username := some "Ann", loggedIn := true } ∧
     2000 ∈ (loginSubmit ⟨1000, Anchor.login ⟨[], ""⟩ ⟨["d-none"], ""⟩ "Ann"⟩ [(1000, some ⟨1000, Anchor.login ⟨[], ""⟩ ⟨["d-none"], ""⟩ "Ann"⟩), (2000, some ⟨2000, Anchor.nav ⟨["d-none"], ""⟩⟩)]).invoked ∧
     lookupReg (loginSubmit ⟨1000, Anchor.login ⟨[], ""⟩ ⟨["d-none"], ""⟩ "Ann"⟩ [(1000, some ⟨1000, Anchor.login ⟨[], ""⟩ ⟨["d-none"], ""⟩ "Ann"⟩), (2000, some ⟨2000, Anchor.nav ⟨["d-none"], ""⟩⟩)]).registry 2000 = some (some ⟨2000, Anchor.nav (removeClass ⟨["d-none"], ""⟩ "d-none")⟩) ∧
     "d-none" ∉ (removeClass ⟨["d-none"], ""⟩ "d-none").classes) :=
  ⟨by decide, by decide, by decide, by decide, by decide,
   login_submit_reveals_nav_logout
     [(1000, some ⟨1000, Anchor.login ⟨[], ""⟩ ⟨["d-none"], ""⟩ "Ann"⟩), (2000, some ⟨2000, Anchor.nav ⟨["d-none"], ""⟩⟩)]
     ⟨1000, Anchor.login ⟨[], ""⟩ ⟨["d-none"], ""⟩ "Ann"⟩
     ⟨2000, Anchor.nav ⟨["d-none"], ""⟩⟩
     ⟨[], ""⟩ ⟨["d-none"], ""⟩ ⟨["d-none"], ""⟩ "Ann"
     (by decide) (by decide) (by decide) rfl rfl (by decide) (by decide)⟩

/-- C7 counterexample: nav 2000 and login 1000 are both registered with
distinct identifiers, but a third slot (3000) was cleared by
`unsubscribe`.  Clicking the logout control then throws inside the
broadcast — before any delivery and before `hideLogoutLink()` runs — so
the login form is not restored and even the logout link stays visible,
contradicting the claim for this state. -/
theorem logout_click_blocked_by_cleared_slot :
    ((logoutClick ⟨2000, Anchor.nav ⟨[], ""⟩⟩
        [(1000, some ⟨1000, Anchor.login ⟨["d-none"], ""⟩ ⟨[], "Welcome Ann"⟩ "Ann"⟩),
         (2000, some ⟨2000, Anchor.nav ⟨[], ""⟩⟩), (3000, none)]).error
      = some JsError.typeError) ∧
    ((logoutClick ⟨2000, Anchor.nav ⟨[], ""⟩⟩
        [(1000, some ⟨1000, Anchor.login ⟨["d-none"], ""⟩ ⟨[], "Welcome Ann"⟩ "Ann"⟩),
         (2000, some ⟨2000, Anchor.nav ⟨[], ""⟩⟩), (3000, none)]).self
      = ⟨2000, Anchor.nav ⟨[], ""⟩⟩) ∧
    (1000 ∉ (logoutClick ⟨2000, Anchor.nav ⟨[], ""⟩⟩
        [(1000, some ⟨1000, Anchor.login ⟨["d-none"], ""⟩ ⟨[], "Welcome Ann"⟩ "Ann"⟩),
         (2000, some ⟨2000, Anchor.nav ⟨[], ""⟩⟩), (3000, none)]).invoked) ∧
    (lookupReg (logoutClick ⟨2000, Anchor.nav ⟨[], ""⟩⟩
        [(1000, some ⟨1000, Anchor.login ⟨["d-none"], ""⟩ ⟨[], "Welcome Ann"⟩ "Ann"⟩),
         (2000, some ⟨2000, Anchor.nav ⟨[], ""⟩⟩), (3000, none)]).registry 1000
      = some (some ⟨1000, Anchor.login ⟨["d-none"], ""⟩ ⟨[], "Welcome Ann"⟩ "Ann"⟩)) := by
  decide

/-- C7 (amended): with a nav component and a login component both
registered under distinct identifiers, provided every registry slot
holds a component (no slot has been cleared by `unsubscribe`; registry
keys are unique, as JS object keys always are), clicking the logout
control broadcasts `{loggingOut: true}` and hides the logout link, and
the login component's `listen` restores the form (removes its `d-none`)
and clears and hides the welcome region.  With a cleared slot the
broadcast can instead throw before the login component is notified. -/
theorem logout_click_restores_login_form
    (r : Registry) (nav login : Component) (link form welcome : Elem) (u : String)
    (hAll : allSlotsDefined r = true)
    (hKeys : (r.map Prod.fst).Nodup)
    (hLoginReg : lookupReg r login.componentId = some (some login))
    (hLoginShape : login.anchor = Anchor.login form welcome u)
    (hNavShape : nav.anchor = Anchor.nav link)
    (hDistinct : nav.componentId ≠ login.componentId) :
    (logoutClick nav r).error = none ∧
    (logoutClick nav r).sent = some { loggingOut := true } ∧
    (logoutClick nav r).self = { nav with anchor := Anchor.nav (addClass link "d-none") } ∧
    "d-none" ∈ (addClass link "d-none").classes ∧
    login.componentId ∈ (logoutClick nav r).invoked ∧
    lookupReg (logoutClick nav r).registry login.componentId
      = some (some { login with anchor := Anchor.login (removeClass form "d-none") (setText (addClass welcome "d-none") "") u }) ∧
    "d-none" ∉ (removeClass form "d-none").classes ∧
    (setText (addClass welcome "d-none") "").text = "" ∧
    "d-none" ∈ (addClass welcome "d-none").classes := by
  obtain ⟨nid, nanchor⟩ := nav
  obtain ⟨lid, lanchor⟩ := login
  simp only [Component.mk.injEq] at hLoginShape hNavShape hDistinct hLoginReg
  subst hLoginShape
  subst hNavShape
  have hs : allSlotsDefined (sortDescByKey r) = true :=
    (allSlotsDefined_sortDescByKey r).trans hAll
  have herr : (broadcast nid { loggingOut := true } r).error = none := by
    unfold broadcast
    exact broadcastGo_error_none _ _ _ hs
  rw [logoutClick_eq nid r link herr]
  refine ⟨rfl, rfl, rfl, mem_addClass link "d-none", ?_, ?_,
    not_mem_removeClass form "d-none", rfl, mem_addClass welcome "d-none"⟩
  · unfold broadcast
    exact broadcastGo_delivers nid _ _ hs _ ⟨lid, Anchor.login form welcome u⟩
      ((sortDescByKey_perm r).mem_iff.mpr (mem_of_lookupReg r _ _ hLoginReg))
      (Ne.symm hDistinct)
  · rw [lookupReg_writeBackSelf_ne _ _ _ _ (Ne.symm hDistinct)]
    unfold broadcast
    rw [broadcastGo_lookup nid { loggingOut := true } (sortDescByKey r) hs lid,
        lookupReg_sortDescByKey r lid hKeys, hLoginReg]
    dsimp only [Option.map]
    rw [if_neg hDistinct]
    rfl

/-- Witness for the amended C7: nav 2000 (visible logout link) and login
1000 (hidden form, welcome shown) are registered; the click hides the
link and restores the login form. -/
theorem logout_click_restores_login_form_witness :
    (allSlotsDefined [(1000, some (⟨1000, Anchor.login ⟨["d-none"], ""⟩ ⟨[], "Welcome Ann"⟩ "Ann"⟩ : Component)), (2000, some ⟨2000, Anchor.nav ⟨[], ""⟩⟩)] = true) ∧
    (([(1000, some (⟨1000, Anchor.login ⟨["d-none"], ""⟩ ⟨[], "Welcome Ann"⟩ "Ann"⟩ : Component)), (2000, some ⟨2000, Anchor.nav ⟨[], ""⟩⟩)].map Prod.fst).Nodup) ∧
    (lookupReg [(1000, some (⟨1000, Anchor.login ⟨["d-none"], ""⟩ ⟨[], "Welcome Ann"⟩ "Ann"⟩ : Component)), (2000, some ⟨2000, Anchor.nav ⟨[], ""⟩⟩)] 1000 = some (some ⟨1000, Anchor.login ⟨["d-none"], ""⟩ ⟨[], "Welcome Ann"⟩ "Ann"⟩)) ∧
    ((2000 : Nat) ≠ 1000) ∧
    ((logoutClick ⟨2000, Anchor.nav ⟨[], ""⟩⟩ [(1000, some ⟨1000, Anchor.login ⟨["d-none"], ""⟩ ⟨[], "Welcome Ann"⟩ "Ann"⟩), (2000, some ⟨2000, Anchor.nav ⟨[], ""⟩⟩)]).error = none ∧
     (logoutClick ⟨2000, Anchor.nav ⟨[], ""⟩⟩ [(1000, some ⟨1000, Anchor.login ⟨["d-none"], ""⟩ ⟨[], "Welcome Ann"⟩ "Ann"⟩), (2000, some ⟨2000, Anchor.nav ⟨[], ""⟩⟩)]).sent = some { loggingOut := true } ∧
     (logoutClick ⟨2000, Anchor.nav ⟨[], ""⟩⟩ [(1000, some ⟨1000, Anchor.login ⟨["d-none"], ""⟩ ⟨[], "Welcome Ann"⟩ "Ann"⟩), (2000, some ⟨2000, Anchor.nav ⟨[], ""⟩⟩)]).self = ⟨2000, Anchor.nav (addClass ⟨[], ""⟩ "d-none")⟩ ∧
     "d-none" ∈ (addClass ⟨[], ""⟩ "d-none").classes ∧
     1000 ∈ (logoutClick ⟨2000, Anchor.nav ⟨[], ""⟩⟩ [(1000, some ⟨1000, Anchor.login ⟨["d-none"], ""⟩ ⟨[], "Welcome Ann"⟩ "Ann"⟩), (2000, some ⟨2000, Anchor.nav ⟨[], ""⟩⟩)]).invoked ∧
     lookupReg (logoutClick ⟨2000, Anchor.nav ⟨[], ""⟩⟩ [(1000, some ⟨1000, Anchor.login ⟨["d-none"], ""⟩ ⟨[], "Welcome Ann"⟩ "Ann"⟩), (2000, some ⟨2000, Anchor.nav ⟨[], ""⟩⟩)]).registry 1000 = some (some ⟨1000, Anchor.login (removeClass ⟨["d-none"], ""⟩ "d-none") (setText (addClass ⟨[], "Welcome Ann"⟩ "d-none") "") "Ann"⟩) ∧
     "d-none" ∉ (removeClass ⟨["d-none"], ""⟩ "d-none").classes ∧
     (setText (addClass ⟨[], "Welcome Ann"⟩ "d-none") "").text = "" ∧
     "d-none" ∈ (addClass ⟨[], "Welcome Ann"⟩ "d-none").classes) :=
  ⟨by decide, by decide, by decide, by decide,
   logout_click_restores_login_form
     [(1000, some ⟨1000, Anchor.login ⟨["d-none"], ""⟩ ⟨[], "Welcome Ann"⟩ "Ann"⟩), (2000, some ⟨2000, Anchor.nav ⟨[], ""⟩⟩)]
     ⟨2000, Anchor.nav ⟨[], ""⟩⟩
     ⟨1000, Anchor.login ⟨["d-none"], ""⟩ ⟨[], "Welcome Ann"⟩ "Ann"⟩
     ⟨[], ""⟩ ⟨["d-none"], ""⟩ ⟨[], "Welcome Ann"⟩ "Ann"
     (by decide) (by decide) (by decide) rfl rfl (by decide)⟩

/-- C8: when the content fetch settles with an ok response carrying JSON
fields `headline` and `content`, the banner's headline text becomes
exactly the fetched headline and its content text exactly the fetched
content, and no error is raised. -/
theorem banner_fetch_ok_sets_text (c : Component) (headline content : Elem)
    (resp : FetchResponse) (hShape : c.anchor = Anchor.banner headline content)
    (hok : resp.ok = true) :
    (loadContent c resp).2 = none ∧
    (loadContent c resp).1.anchor
      = Anchor.banner (setText headline resp.headline) (setText content resp.content) ∧
    (setText headline resp.headline).text = resp.headline ∧
    (setText content resp.content).text = resp.content := by
  obtain ⟨cid, anchor⟩ := c
  simp only [Component.mk.injEq] at hShape
  subst hShape
  simp [loadContent, hok, setText]

/-- Witness for C8 at a concrete banner and the ok response
`{headline: "H", content: "C"}`. -/
theorem banner_fetch_ok_sets_text_witness :
    ((⟨1000, Anchor.banner ⟨[], "old"⟩ ⟨[], "oldc"⟩⟩ : Component).anchor
      = Anchor.banner ⟨[], "old"⟩ ⟨[], "oldc"⟩) ∧
    ((⟨true, "H", "C"⟩ : FetchResponse).ok = true) ∧
    ((loadContent ⟨1000, Anchor.banner ⟨[], "old"⟩ ⟨[], "oldc"⟩⟩ ⟨true, "H", "C"⟩).2 = none ∧
     (loadContent ⟨1000, Anchor.banner ⟨[], "old"⟩ ⟨[], "oldc"⟩⟩ ⟨true, "H", "C"⟩).1.anchor
       = Anchor.banner (setText ⟨[], "old"⟩ "H") (setText ⟨[], "oldc"⟩ "C") ∧
     (setText ⟨[], "old"⟩ "H").text = "H" ∧
     (setText ⟨[], "oldc"⟩ "C").text = "C") :=
  ⟨rfl, rfl,
   banner_fetch_ok_sets_text ⟨1000, Anchor.banner ⟨[], "old"⟩ ⟨[], "oldc"⟩⟩
     ⟨[], "old"⟩ ⟨[], "oldc"⟩ ⟨true, "H", "C"⟩ rfl rfl⟩

/-- C9 counterexample: at a concrete banner and a non-ok response, the
element texts are indeed left unchanged, but the failure is not silently
dropped — the resolution callback reads `data.headline` of `undefined`
and a TypeError escapes, contradicting the claim that no error
propagates beyond local handling. -/
theorem banner_fetch_not_ok_raises :
    ((loadContent ⟨1000, Anchor.banner ⟨[], "old"⟩ ⟨[], "oldc"⟩⟩
        ⟨false, "H", "C"⟩).2 = some JsError.typeError) ∧
    ((loadContent ⟨1000, Anchor.banner ⟨[], "old"⟩ ⟨[], "oldc"⟩⟩ ⟨false, "H", "C"⟩).1
      = ⟨1000, Anchor.banner ⟨[], "old"⟩ ⟨[], "oldc"⟩⟩) := by
  decide

/-- C9 (amended): on a non-ok response the banner's headline and content
text are left unchanged and no error is shown in the banner's DOM, but
the failure is not dropped: the success callback still runs with
`undefined` data, so a TypeError escapes as an unhandled rejection. -/
theorem banner_fetch_not_ok_leaves_text (c : Component) (headline content : Elem)
    (resp : FetchResponse) (hShape : c.anchor = Anchor.banner headline content)
    (hok : resp.ok = false) :
    loadContent c resp = (c, some JsError.typeError) := by
  obtain ⟨cid, anchor⟩ := c
  simp only [Component.mk.injEq] at hShape
  subst hShape
  simp [loadContent, hok]

/-- Witness for the amended C9 at a concrete banner and non-ok response. -/
theorem banner_fetch_not_ok_leaves_text_witness :
    ((⟨1000, Anchor.banner ⟨[], "old"⟩ ⟨[], "oldc"⟩⟩ : Component).anchor
      = Anchor.banner ⟨[], "old"⟩ ⟨[], "oldc"⟩) ∧
    ((⟨false, "H", "C"⟩ : FetchResponse).ok = false) ∧
    loadContent ⟨1000, Anchor.banner ⟨[], "old"⟩ ⟨[], "oldc"⟩⟩ ⟨false, "H", "C"⟩
      = (⟨1000, Anchor.banner ⟨[], "old"⟩ ⟨[], "oldc"⟩⟩, some JsError.typeError) :=
  ⟨rfl, rfl,
   banner_fetch_not_ok_leaves_text ⟨1000, Anchor.banner ⟨[], "old"⟩ ⟨[], "oldc"⟩⟩
     ⟨[], "old"⟩ ⟨[], "oldc"⟩ ⟨false, "H", "C"⟩ rfl rfl⟩
